import Mathlib

/-!
Verification of the QCK JS SDK request dispatcher (src/client.ts) and its
error taxonomy (errors.ts).  The dispatcher's per-attempt behaviour is
embedded as a pure step function `stepOf`, and the attempt loop
`for (let attempt = 0; attempt <= this.retries; attempt++)` is embedded as
the fuel-indexed recursion `runAux`, where fuel = retries + 1 - attempt.
Responses are modelled by `HttpResponse`: HTTP status, the two headers the
code reads (Retry-After, content-length), and the result of
`response.json()` (a parsed envelope, or the thrown parse-error message).
-/

namespace QCK

/-- Default base URL constant (client.ts line 10). -/
def DEFAULT_BASE_URL : String := "https://api.qck.sh/api/v1/developer"

/-- Default timeout in ms (client.ts line 11). -/
def DEFAULT_TIMEOUT : Int := 30000

/-- Default retry count (client.ts line 12). -/
def DEFAULT_RETRIES : Nat := 3

/-- Cap on the 429-dictated sleep, in ms (client.ts line 13). -/
def MAX_RETRY_DELAY_MS : Int := 120000

/-- The error field of the wire envelope (types.ts ApiResponse.error). -/
structure ErrorInfo where
  code : String
  message : String
deriving DecidableEq, Repr

/-- The wire envelope ApiResponse of types.ts. -/
structure Envelope (α : Type) where
  success : Bool
  data : Option α
  error : Option ErrorInfo
deriving DecidableEq, Repr

/-- A value of the QCKError class hierarchy (errors.ts): the name set by the
concrete class, the message, the HTTP status, the code, and the retryAfter
field carried only by RateLimitError. -/
structure TypedError where
  name : String
  message : String
  status : Int
  code : String
  retryAfter : Option Int
deriving DecidableEq, Repr

/-- QCKError constructor (errors.ts). -/
def mkQCKError (message : String) (status : Int) (code : String) : TypedError :=
  { name := "QCKError", message := message, status := status, code := code,
    retryAfter := none }

/-- AuthenticationError constructor: fixed status 401 and code. -/
def mkAuthenticationError (message : String) : TypedError :=
  { name := "AuthenticationError", message := message, status := 401,
    code := "AUTHENTICATION_ERROR", retryAfter := none }

/-- RateLimitError constructor: fixed status 429 and code, carries retryAfter. -/
def mkRateLimitError (message : String) (retryAfter : Int) : TypedError :=
  { name := "RateLimitError", message := message, status := 429,
    code := "RATE_LIMIT_ERROR", retryAfter := some retryAfter }

/-- NotFoundError constructor: fixed status 404 and code. -/
def mkNotFoundError (message : String) : TypedError :=
  { name := "NotFoundError", message := message, status := 404,
    code := "NOT_FOUND", retryAfter := none }

/-- ValidationError constructor: fixed status 400 and code. -/
def mkValidationError (message : String) : TypedError :=
  { name := "ValidationError", message := message, status := 400,
    code := "VALIDATION_ERROR", retryAfter := none }

/-- Value of a decimal digit run, most significant first. -/
def digitsVal (ds : List Char) : Nat :=
  ds.foldl (fun a c => a * 10 + (c.toNat - 48)) 0

/-- Longest leading digit run of a character list; none when there is no
leading digit (parseInt then yields NaN). -/
def parseDigits (cs : List Char) : Option Nat :=
  let ds := cs.takeWhile Char.isDigit
  if ds.isEmpty then none else some (digitsVal ds)

/-- JS parseInt(s, 10): skip leading whitespace, optional sign, then the
longest digit prefix; none models NaN. -/
def parseInt10 (s : String) : Option Int :=
  let cs := s.toList.dropWhile Char.isWhitespace
  match cs with
  | '-' :: rest => (parseDigits rest).map (fun n => -(n : Int))
  | '+' :: rest => (parseDigits rest).map (fun n => (n : Int))
  | _ => (parseDigits cs).map (fun n => (n : Int))

/-- parseRetryAfter (client.ts lines 213-217): 60 when the header is null or
empty (falsy) and 60 when parseInt gives NaN, else the parsed value. -/
def parseRetryAfter (header : Option String) : Int :=
  match header with
  | none => 60
  | some h =>
    if h = "" then 60
    else
      match parseInt10 h with
      | none => 60
      | some n => n

/-- Outcome of response.json(): a parsed envelope, or the message of the
exception the parse threw. -/
inductive BodyParse (α : Type) where
  | parsed (env : Envelope α)
  | unparseable (msg : String)
deriving DecidableEq, Repr

/-- An HTTP response as the dispatcher observes it: status, the Retry-After
and content-length headers, and the body parse outcome. -/
structure HttpResponse (α : Type) where
  status : Int
  retryAfterHeader : Option String
  contentLengthHeader : Option String
  body : BodyParse α
deriving DecidableEq, Repr

/-- response.ok: status in the 2xx range. -/
def responseOk (status : Int) : Bool :=
  decide (200 ≤ status) && decide (status < 300)

/-- What a single fetch attempt produced: a response, an AbortError-signalled
deadline expiry, or a connectivity failure with its message. -/
inductive AttemptOutcome (α : Type) where
  | response (r : HttpResponse α)
  | timeout
  | networkFailure (msg : String)
deriving DecidableEq, Repr

/-- What a call returns on success: undefined (204 / empty body) or the
envelope's data field (which may be null). -/
inductive RequestValue (α : Type) where
  | undefinedVal
  | dataVal (d : Option α)
deriving DecidableEq, Repr

/-- mapError (client.ts lines 182-210): message/code default to
"HTTP status" / API_ERROR and are overwritten from the envelope's error
field when the body parses and carries one; then the variant is selected by
status. -/
def mapError {α : Type} (r : HttpResponse α) : TypedError :=
  let parsedErr : Option ErrorInfo :=
    match r.body with
    | BodyParse.parsed env => env.error
    | BodyParse.unparseable _ => none
  let message : String :=
    match parsedErr with
    | some e => e.message
    | none => "HTTP " ++ toString r.status
  let code : String :=
    match parsedErr with
    | some e => e.code
    | none => "API_ERROR"
  if r.status = 400 then mkValidationError message
  else if r.status = 401 then mkAuthenticationError message
  else if r.status = 404 then mkNotFoundError message
  else if r.status = 429 then
    mkRateLimitError message (parseRetryAfter r.retryAfterHeader)
  else mkQCKError message r.status code

/-- Effect of one iteration of the attempt loop. -/
inductive Step (α : Type) where
  | done (v : RequestValue α)
  | failed (e : TypedError)
  | retrySleep (ms : Int)
  | retryNoSleep
deriving DecidableEq, Repr

/-- One iteration of the attempt loop of HttpClient.request
(client.ts lines 80-159), as a function of the attempt's outcome.
Branches in source order: the 429 branch (sleep the server-dictated delay
capped at MAX_RETRY_DELAY_MS, or throw RateLimitError on the last attempt);
the not-ok branch (throw mapError, caught and re-thrown as a QCKError: no
retry); the 204 / content-length "0" branch (return undefined); the JSON
parse (a parse failure is caught by the generic catch and handled as a
network error); the envelope-failure branch; the success return.  A thrown
timeout maps to TIMEOUT and continues without sleeping; other failures wrap
as NETWORK_ERROR and sleep the exponential backoff. -/
def stepOf {α : Type} (retries attempt : Nat) :
    AttemptOutcome α → Step α
  | AttemptOutcome.response r =>
    if r.status = 429 then
      let retryAfter := parseRetryAfter r.retryAfterHeader
      if attempt < retries then
        Step.retrySleep (min (retryAfter * 1000) MAX_RETRY_DELAY_MS)
      else
        Step.failed (mkRateLimitError "Rate limit exceeded" retryAfter)
    else if !(responseOk r.status) then
      Step.failed (mapError r)
    else if r.status = 204 ∨ r.contentLengthHeader = some "0" then
      Step.done RequestValue.undefinedVal
    else
      match r.body with
      | BodyParse.unparseable msg =>
        if retries ≤ attempt then
          Step.failed (mkQCKError ("Network error: " ++ msg) 0 "NETWORK_ERROR")
        else
          Step.retrySleep (min (1000 * (2 : Int) ^ attempt) 10000)
      | BodyParse.parsed env =>
        match env.success, env.error with
        | false, some e => Step.failed (mkQCKError e.message r.status e.code)
        | _, _ => Step.done (RequestValue.dataVal env.data)
  | AttemptOutcome.timeout =>
    if retries ≤ attempt then
      Step.failed (mkQCKError "Request timed out" 0 "TIMEOUT")
    else
      Step.retryNoSleep
  | AttemptOutcome.networkFailure msg =>
    if retries ≤ attempt then
      Step.failed (mkQCKError ("Network error: " ++ msg) 0 "NETWORK_ERROR")
    else
      Step.retrySleep (min (1000 * (2 : Int) ^ attempt) 10000)

/-- Terminal outcome of a call. -/
inductive CallEnd (α : Type) where
  | ok (v : RequestValue α)
  | err (e : TypedError)
deriving DecidableEq, Repr

/-- Trace of a call: its terminal outcome, the sleeps performed in order
(ms), and the number of HTTP requests issued. -/
structure CallResult (α : Type) where
  result : CallEnd α
  sleeps : List Int
  requests : Nat
deriving DecidableEq, Repr

/-- The attempt loop from a given attempt index, with fuel
retries + 1 - attempt.  The fuel-0 case corresponds to falling out of the
loop (client.ts line 162, the UNKNOWN fallback); it is unreachable whenever
attempt ≤ retries since the last attempt never continues. -/
def runAux {α : Type} (retries : Nat) (outcomes : Nat → AttemptOutcome α) :
    Nat → Nat → CallResult α
  | _, 0 =>
    { result := CallEnd.err (mkQCKError "Request failed" 0 "UNKNOWN"),
      sleeps := [], requests := 0 }
  | attempt, fuel + 1 =>
    match stepOf retries attempt (outcomes attempt) with
    | Step.done v => { result := CallEnd.ok v, sleeps := [], requests := 1 }
    | Step.failed e => { result := CallEnd.err e, sleeps := [], requests := 1 }
    | Step.retrySleep ms =>
      let rest := runAux retries outcomes (attempt + 1) fuel
      { result := rest.result, sleeps := ms :: rest.sleeps,
        requests := rest.requests + 1 }
    | Step.retryNoSleep =>
      let rest := runAux retries outcomes (attempt + 1) fuel
      { result := rest.result, sleeps := rest.sleeps,
        requests := rest.requests + 1 }

/-- A full call of HttpClient.request: the loop from attempt 0. -/
def request {α : Type} (retries : Nat) (outcomes : Nat → AttemptOutcome α) :
    CallResult α :=
  runAux retries outcomes 0 (retries + 1)

/-- Construction-time configuration (types.ts QCKConfig). -/
structure QCKConfig where
  apiKey : String
  baseUrl : Option String
  timeoutMs : Option Int
  retriesCfg : Option Nat
deriving DecidableEq, Repr

/-- The immutable state an HttpClient holds after construction. -/
structure HttpClientState where
  apiKey : String
  baseUrl : String
  timeoutMs : Int
  retries : Nat
deriving DecidableEq, Repr

/-- Outcome of the constructor. -/
inductive ConstructResult where
  | ok (st : HttpClientState)
  | err (e : TypedError)
deriving DecidableEq, Repr

/-- The regex replace of client.ts line 35: strip every trailing slash. -/
def stripTrailingSlashes (s : String) : String :=
  String.mk ((s.toList.reverse.dropWhile (fun c => c = '/')).reverse)

/-- HttpClient constructor (client.ts lines 25-38): an empty apiKey is falsy
and raises AuthenticationError; otherwise the config is stored with
defaults applied. -/
def constructClient (cfg : QCKConfig) : ConstructResult :=
  if cfg.apiKey = "" then
    ConstructResult.err (mkAuthenticationError "API key is required")
  else
    ConstructResult.ok
      { apiKey := cfg.apiKey,
        baseUrl := stripTrailingSlashes (cfg.baseUrl.getD DEFAULT_BASE_URL),
        timeoutMs := cfg.timeoutMs.getD DEFAULT_TIMEOUT,
        retries := cfg.retriesCfg.getD DEFAULT_RETRIES }

/-- A query-parameter value: string | number | boolean | undefined. -/
inductive ParamValue where
  | str (s : String)
  | num (n : Int)
  | boolVal (b : Bool)
  | undef
deriving DecidableEq, Repr

/-- JS String(value) coercion on a defined parameter value. -/
def ParamValue.coerce : ParamValue → String
  | ParamValue.str s => s
  | ParamValue.num n => toString n
  | ParamValue.boolVal b => if b then "true" else "false"
  | ParamValue.undef => "undefined"

/-- URLSearchParams.set(k, v): replace the first pair named k (dropping any
later ones), or append when k is absent. -/
def setParam : List (String × String) → String → String → List (String × String)
  | [], k, v => [(k, v)]
  | kv :: rest, k, v =>
    if kv.1 = k then (k, v) :: rest.filter (fun kv2 => !(kv2.1 == k))
    else kv :: setParam rest k v

/-- A built URL: the concatenated base part and the search params. -/
structure BuiltUrl where
  base : String
  query : List (String × String)
deriving DecidableEq, Repr

/-- buildUrl (client.ts lines 165-180): concatenate baseUrl and path, then
for each defined entry of the params record call searchParams.set with the
string-coerced value. -/
def buildUrl (baseUrl path : String)
    (params : Option (List (String × ParamValue))) : BuiltUrl :=
  { base := baseUrl ++ path,
    query :=
      match params with
      | none => []
      | some ps =>
        ps.foldl
          (fun q kv =>
            if kv.2 = ParamValue.undef then q
            else setParam q kv.1 (ParamValue.coerce kv.2))
          [] }

/-- On the last attempt (retries ≤ attempt) every branch of the loop body
terminates the call: no branch continues to another attempt. -/
theorem stepOf_last {α : Type} (retries attempt : Nat) (h : retries ≤ attempt)
    (o : AttemptOutcome α) :
    (∃ v, stepOf retries attempt o = Step.done v) ∨
    (∃ e, stepOf retries attempt o = Step.failed e) := by
  have hnlt : ¬ attempt < retries := by omega
  cases o with
  | response r =>
    simp only [stepOf, hnlt, if_false, if_pos h]
    split
    · right; exact ⟨_, rfl⟩
    · split
      · right; exact ⟨_, rfl⟩
      · split
        · left; exact ⟨_, rfl⟩
        · split
          · right; exact ⟨_, rfl⟩
          · split
            · right; exact ⟨_, rfl⟩
            · left; exact ⟨_, rfl⟩
  | timeout =>
    simp only [stepOf, if_pos h]
    right; exact ⟨_, rfl⟩
  | networkFailure msg =>
    simp only [stepOf, if_pos h]
    right; exact ⟨_, rfl⟩

/-- The loop issues at most fuel requests. -/
theorem runAux_requests_le {α : Type} (retries : Nat)
    (outcomes : Nat → AttemptOutcome α) :
    ∀ fuel attempt, (runAux retries outcomes attempt fuel).requests ≤ fuel := by
  intro fuel
  induction fuel with
  | zero => intro attempt; simp [runAux]
  | succ n ih =>
    intro attempt
    simp only [runAux]
    split
    · simp
    · simp
    · simpa using ih (attempt + 1)
    · simpa using ih (attempt + 1)

/-- With at least one unit of fuel the loop issues at least one request. -/
theorem runAux_requests_pos {α : Type} (retries : Nat)
    (outcomes : Nat → AttemptOutcome α) (fuel attempt : Nat) :
    1 ≤ (runAux retries outcomes attempt (fuel + 1)).requests := by
  simp only [runAux]
  split <;> simp

/-- C6: for every call the loop terminates with at most maxRetries + 1
requests issued and at least one; when maxRetries is 0 exactly one attempt
is made and no sleep occurs, any failure being settled on that attempt. -/
theorem c6_attempt_loop_bound {α : Type} (retries : Nat)
    (outcomes : Nat → AttemptOutcome α) :
    1 ≤ (request retries outcomes).requests ∧
    (request retries outcomes).requests ≤ retries + 1 ∧
    (retries = 0 →
      (request retries outcomes).requests = 1 ∧
      (request retries outcomes).sleeps = []) := by
  refine ⟨runAux_requests_pos retries outcomes retries 0,
    runAux_requests_le retries outcomes (retries + 1) 0, ?_⟩
  intro h0
  subst h0
  rcases stepOf_last 0 0 (le_refl 0) (outcomes 0) with ⟨v, hv⟩ | ⟨e, he⟩
  · simp [request, runAux, hv]
  · simp [request, runAux, he]

/-- Witness for C6: a call with maxRetries 0 whose single attempt times out
issues exactly one request and never sleeps. -/
theorem c6_attempt_loop_bound_witness :
    (request 0 (fun _ => (AttemptOutcome.timeout : AttemptOutcome Unit))).requests = 1 ∧
    (request 0 (fun _ => (AttemptOutcome.timeout : AttemptOutcome Unit))).sleeps = [] :=
  (c6_attempt_loop_bound 0 (fun _ => AttemptOutcome.timeout)).2.2 rfl

/-- C7: constructing with an empty apiKey fails synchronously with an
Authentication-class error and this is the only constructor-time failure;
a non-empty apiKey always yields a client whose configuration applies the
defaults baseUrl (trailing slashes stripped), timeoutMs 30000,
maxRetries 3. -/
theorem c7_constructor_behavior (cfg : QCKConfig) :
    (cfg.apiKey = "" →
      constructClient cfg =
        ConstructResult.err (mkAuthenticationError "API key is required")) ∧
    (mkAuthenticationError "API key is required").name = "AuthenticationError" ∧
    (mkAuthenticationError "API key is required").status = 401 ∧
    (cfg.apiKey ≠ "" →
      constructClient cfg =
        ConstructResult.ok
          { apiKey := cfg.apiKey,
            baseUrl := stripTrailingSlashes (cfg.baseUrl.getD DEFAULT_BASE_URL),
            timeoutMs := cfg.timeoutMs.getD DEFAULT_TIMEOUT,
            retries := cfg.retriesCfg.getD DEFAULT_RETRIES }) ∧
    (cfg.baseUrl = none →
      stripTrailingSlashes (cfg.baseUrl.getD DEFAULT_BASE_URL) =
        "https://api.qck.sh/api/v1/developer") ∧
    DEFAULT_TIMEOUT = 30000 ∧ DEFAULT_RETRIES = 3 := by
  refine ⟨?_, rfl, rfl, ?_, ?_, rfl, rfl⟩
  · intro h; simp [constructClient, h]
  · intro h; simp [constructClient, h]
  · intro h; rw [h]; rfl

/-- Witness for C7: the empty apiKey is rejected with the authentication
error, and the key "k" is accepted with all defaults applied. -/
theorem c7_constructor_behavior_witness :
    constructClient ⟨"", none, none, none⟩ =
      ConstructResult.err (mkAuthenticationError "API key is required") ∧
    constructClient ⟨"k", none, none, none⟩ =
      ConstructResult.ok ⟨"k", "https://api.qck.sh/api/v1/developer", 30000, 3⟩ :=
  ⟨(c7_constructor_behavior ⟨"", none, none, none⟩).1 rfl,
   by
    have h := (c7_constructor_behavior ⟨"k", none, none, none⟩).2.2.2.1 (by decide)
    simpa using h⟩

/-- C2 counterexample: with maxRetries 1 and both attempts ending in
deadline expiry, the trace contains no sleep at all, while the claim
requires a min(1000 * 2 ^ 0, 10000) = 1000 ms sleep after the first
timeout; the code retries timeouts immediately. -/
theorem c2_counterexample :
    request 1 (fun _ => (AttemptOutcome.timeout : AttemptOutcome Unit)) =
      { result := CallEnd.err (mkQCKError "Request timed out" 0 "TIMEOUT"),
        sleeps := [], requests := 2 } ∧
    (request 1 (fun _ => (AttemptOutcome.timeout : AttemptOutcome Unit))).sleeps ≠
      [min (1000 * (2 : Int) ^ (0 : Nat)) 10000] := by
  constructor
  · rfl
  · decide

/-- C3 counterexample: a 400 response whose envelope carries the error code
SOME_CODE is raised as a ValidationError whose code is the class-fixed
VALIDATION_ERROR, not the envelope's code. -/
theorem c3_counterexample :
    (request 3 (fun _ => AttemptOutcome.response
        ({ status := 400, retryAfterHeader := none, contentLengthHeader := none,
           body := BodyParse.parsed
             { success := false, data := none,
               error := some { code := "SOME_CODE", message := "URL is required" } } }
          : HttpResponse Unit))).result =
      CallEnd.err
        { name := "ValidationError", message := "URL is required", status := 400,
          code := "VALIDATION_ERROR", retryAfter := none } ∧
    ("VALIDATION_ERROR" : String) ≠ "SOME_CODE" := by
  constructor
  · rfl
  · decide

/-- C8 counterexample: a Retry-After header of "-5" parses (JS parseInt) to
the negative value -5, and the RateLimit error raised on the final attempt
carries retryAfterSeconds = -5, violating the claimed invariant ≥ 0. -/
theorem c8_counterexample :
    (request 0 (fun _ => AttemptOutcome.response
        ({ status := 429, retryAfterHeader := some "-5",
           contentLengthHeader := none, body := BodyParse.unparseable "x" }
          : HttpResponse Unit))).result =
      CallEnd.err
        { name := "RateLimitError", message := "Rate limit exceeded",
          status := 429, code := "RATE_LIMIT_ERROR", retryAfter := some (-5) } ∧
    ¬ (0 : Int) ≤ -5 := by
  constructor
  · rfl
  · decide

/-- C10 counterexample: a 500 response whose envelope carries the error code
TIMEOUT is raised as a Generic error with code TIMEOUT and httpStatus 500,
so not every error with code TIMEOUT carries httpStatus 0. -/
theorem c10_counterexample :
    (request 0 (fun _ => AttemptOutcome.response
        ({ status := 500, retryAfterHeader := none, contentLengthHeader := none,
           body := BodyParse.parsed
             { success := false, data := none,
               error := some { code := "TIMEOUT", message := "upstream timed out" } } }
          : HttpResponse Unit))).result =
      CallEnd.err
        { name := "QCKError", message := "upstream timed out", status := 500,
          code := "TIMEOUT", retryAfter := none } ∧
    (500 : Int) ≠ 0 := by
  constructor
  · rfl
  · decide

/-- C1: on a 429 response at attempt a the dispatcher sleeps
min(retryAfterSeconds * 1000, 120000) ms and proceeds to attempt a + 1 when
a < maxRetries, and fails with a RateLimit error carrying the
retryAfterSeconds parsed on that final attempt when a = maxRetries;
the parse defaults to 60 for a missing or non-numeric header. -/
theorem c1_rate_limit_policy {α : Type} (retries : Nat)
    (outcomes : Nat → AttemptOutcome α) (a : Nat) (r : HttpResponse α)
    (hout : outcomes a = AttemptOutcome.response r) (h429 : r.status = 429) :
    (a < retries →
      runAux retries outcomes a (retries + 1 - a) =
        { result := (runAux retries outcomes (a + 1) (retries - a)).result,
          sleeps :=
            min (parseRetryAfter r.retryAfterHeader * 1000) MAX_RETRY_DELAY_MS ::
              (runAux retries outcomes (a + 1) (retries - a)).sleeps,
          requests := (runAux retries outcomes (a + 1) (retries - a)).requests + 1 }) ∧
    (a = retries →
      runAux retries outcomes a (retries + 1 - a) =
        { result :=
            CallEnd.err
              (mkRateLimitError "Rate limit exceeded"
                (parseRetryAfter r.retryAfterHeader)),
          sleeps := [], requests := 1 }) ∧
    parseRetryAfter none = 60 ∧
    (∀ s : String, parseInt10 s = none → parseRetryAfter (some s) = 60) := by
  refine ⟨?_, ?_, rfl, ?_⟩
  · intro hlt
    have hfuel : retries + 1 - a = (retries - a) + 1 := by omega
    rw [hfuel]
    have hstep : stepOf retries a (outcomes a) =
        Step.retrySleep
          (min (parseRetryAfter r.retryAfterHeader * 1000) MAX_RETRY_DELAY_MS) := by
      rw [hout]
      simp [stepOf, h429, hlt]
    simp [runAux, hstep]
  · intro heq
    subst heq
    have hfuel : a + 1 - a = 1 := by omega
    rw [hfuel]
    have hstep : stepOf a a (outcomes a) =
        Step.failed
          (mkRateLimitError "Rate limit exceeded"
            (parseRetryAfter r.retryAfterHeader)) := by
      rw [hout]
      simp [stepOf, h429]
    simp [runAux, hstep]
  · intro s hs
    by_cases hse : s = "" <;> simp [parseRetryAfter, hse, hs]

/-- Witness for C1: a call with maxRetries 1 whose first attempt hits a 429
with Retry-After 7 sleeps the capped server-dictated delay and moves to
attempt 1. -/
theorem c1_rate_limit_policy_witness :
    runAux 1
      (fun _ => AttemptOutcome.response
        ({ status := 429, retryAfterHeader := some "7",
           contentLengthHeader := none, body := BodyParse.unparseable "x" }
          : HttpResponse Unit)) 0 (1 + 1 - 0) =
      { result :=
          (runAux 1
            (fun _ => AttemptOutcome.response
              ({ status := 429, retryAfterHeader := some "7",
                 contentLengthHeader := none, body := BodyParse.unparseable "x" }
                : HttpResponse Unit)) (0 + 1) (1 - 0)).result,
        sleeps :=
          min (parseRetryAfter (some "7") * 1000) MAX_RETRY_DELAY_MS ::
            (runAux 1
              (fun _ => AttemptOutcome.response
                ({ status := 429, retryAfterHeader := some "7",
                   contentLengthHeader := none, body := BodyParse.unparseable "x" }
                  : HttpResponse Unit)) (0 + 1) (1 - 0)).sleeps,
        requests :=
          (runAux 1
            (fun _ => AttemptOutcome.response
              ({ status := 429, retryAfterHeader := some "7",
                 contentLengthHeader := none, body := BodyParse.unparseable "x" }
                : HttpResponse Unit)) (0 + 1) (1 - 0)).requests + 1 } :=
  (c1_rate_limit_policy 1
    (fun _ => AttemptOutcome.response
      ({ status := 429, retryAfterHeader := some "7",
         contentLengthHeader := none, body := BodyParse.unparseable "x" }
        : HttpResponse Unit)) 0
    { status := 429, retryAfterHeader := some "7", contentLengthHeader := none,
      body := BodyParse.unparseable "x" } rfl rfl).1 (by decide)

/-- C2 amended: a deadline expiry at attempt a < maxRetries retries
immediately with no sleep; only a connectivity failure sleeps the
exponential backoff min(1000 * 2 ^ a, 10000) ms before attempt a + 1; on
the final attempt the call fails with the Generic TIMEOUT error with the
fixed message, or the NETWORK_ERROR error wrapping the underlying
message. -/
theorem c2_transport_failure_policy {α : Type} (retries : Nat)
    (outcomes : Nat → AttemptOutcome α) (a : Nat) :
    (outcomes a = AttemptOutcome.timeout →
      (a < retries →
        runAux retries outcomes a (retries + 1 - a) =
          { result := (runAux retries outcomes (a + 1) (retries - a)).result,
            sleeps := (runAux retries outcomes (a + 1) (retries - a)).sleeps,
            requests :=
              (runAux retries outcomes (a + 1) (retries - a)).requests + 1 }) ∧
      (a = retries →
        runAux retries outcomes a (retries + 1 - a) =
          { result := CallEnd.err (mkQCKError "Request timed out" 0 "TIMEOUT"),
            sleeps := [], requests := 1 })) ∧
    (∀ msg, outcomes a = AttemptOutcome.networkFailure msg →
      (a < retries →
        runAux retries outcomes a (retries + 1 - a) =
          { result := (runAux retries outcomes (a + 1) (retries - a)).result,
            sleeps := min (1000 * (2 : Int) ^ a) 10000 ::
              (runAux retries outcomes (a + 1) (retries - a)).sleeps,
            requests :=
              (runAux retries outcomes (a + 1) (retries - a)).requests + 1 }) ∧
      (a = retries →
        runAux retries outcomes a (retries + 1 - a) =
          { result :=
              CallEnd.err
                (mkQCKError ("Network error: " ++ msg) 0 "NETWORK_ERROR"),
            sleeps := [], requests := 1 })) := by
  constructor
  · intro hout
    constructor
    · intro hlt
      have hfuel : retries + 1 - a = (retries - a) + 1 := by omega
      rw [hfuel]
      have hstep : stepOf retries a (outcomes a) = (Step.retryNoSleep : Step α) := by
        rw [hout]
        simp [stepOf, Nat.not_le.mpr hlt]
      simp [runAux, hstep]
    · intro heq
      subst heq
      have hfuel : a + 1 - a = 1 := by omega
      rw [hfuel]
      have hstep : stepOf a a (outcomes a) =
          (Step.failed (mkQCKError "Request timed out" 0 "TIMEOUT") : Step α) := by
        rw [hout]
        simp [stepOf]
      simp [runAux, hstep]
  · intro msg hout
    constructor
    · intro hlt
      have hfuel : retries + 1 - a = (retries - a) + 1 := by omega
      rw [hfuel]
      have hstep : stepOf retries a (outcomes a) =
          (Step.retrySleep (min (1000 * (2 : Int) ^ a) 10000) : Step α) := by
        rw [hout]
        simp [stepOf, Nat.not_le.mpr hlt]
      simp [runAux, hstep]
    · intro heq
      subst heq
      have hfuel : a + 1 - a = 1 := by omega
      rw [hfuel]
      have hstep : stepOf a a (outcomes a) =
          (Step.failed (mkQCKError ("Network error: " ++ msg) 0 "NETWORK_ERROR")
            : Step α) := by
        rw [hout]
        simp [stepOf]
      simp [runAux, hstep]

/-- Witness for C2 amended: with maxRetries 0 a connectivity failure on the
single attempt fails at once with the wrapped NETWORK_ERROR. -/
theorem c2_transport_failure_policy_witness :
    runAux 0 (fun _ => (AttemptOutcome.networkFailure "refused" : AttemptOutcome Unit))
      0 (0 + 1 - 0) =
      { result :=
          CallEnd.err
            (mkQCKError ("Network error: " ++ "refused") 0 "NETWORK_ERROR"),
        sleeps := [], requests := 1 } :=
  ((c2_transport_failure_policy 0
    (fun _ => (AttemptOutcome.networkFailure "refused" : AttemptOutcome Unit))
    0).2 "refused" rfl).2 rfl

/-- C4: a response whose status is neither 2xx nor 429 terminates the call
on the attempt that received it, with the mapped error, no sleep and no
further request, regardless of maxRetries. -/
theorem c4_no_retry_non429 {α : Type} (retries : Nat)
    (outcomes : Nat → AttemptOutcome α) (a : Nat) (r : HttpResponse α)
    (ha : a ≤ retries) (hout : outcomes a = AttemptOutcome.response r)
    (hnok : responseOk r.status = false) (h429 : r.status ≠ 429) :
    runAux retries outcomes a (retries + 1 - a) =
      { result := CallEnd.err (mapError r), sleeps := [], requests := 1 } := by
  obtain ⟨f, hf⟩ : ∃ f, retries + 1 - a = f + 1 := ⟨retries - a, by omega⟩
  rw [hf]
  have hstep : stepOf retries a (outcomes a) = Step.failed (mapError r) := by
    rw [hout]
    simp [stepOf, h429, hnok]
  simp [runAux, hstep]

/-- Witness for C4: a 500 response with maxRetries 3 fails on the very first
attempt with exactly one request and no sleep. -/
theorem c4_no_retry_non429_witness :
    runAux 3
      (fun _ => AttemptOutcome.response
        ({ status := 500, retryAfterHeader := none, contentLengthHeader := none,
           body := BodyParse.unparseable "y" } : HttpResponse Unit)) 0 (3 + 1 - 0) =
      { result :=
          CallEnd.err
            (mapError
              ({ status := 500, retryAfterHeader := none,
                 contentLengthHeader := none,
                 body := BodyParse.unparseable "y" } : HttpResponse Unit)),
        sleeps := [], requests := 1 } :=
  c4_no_retry_non429 3
    (fun _ => AttemptOutcome.response
      ({ status := 500, retryAfterHeader := none, contentLengthHeader := none,
         body := BodyParse.unparseable "y" } : HttpResponse Unit)) 0
    { status := 500, retryAfterHeader := none, contentLengthHeader := none,
      body := BodyParse.unparseable "y" }
    (by decide) rfl (by decide) (by decide)

/-- C5: on a 2xx response the dispatcher returns undefined immediately when
the status is 204 or the content-length header is "0" (whatever the body
holds); otherwise, with the body parsed as the envelope, an envelope with
success false and an error present fails the call with a typed error
carrying the envelope's code and message despite the 2xx status, and any
other envelope resolves to its data field unchanged. -/
theorem c5_success_handling {α : Type} (retries : Nat)
    (outcomes : Nat → AttemptOutcome α) (a : Nat) (r : HttpResponse α)
    (ha : a ≤ retries) (hout : outcomes a = AttemptOutcome.response r)
    (hok : responseOk r.status = true) :
    ((r.status = 204 ∨ r.contentLengthHeader = some "0") →
      runAux retries outcomes a (retries + 1 - a) =
        { result := CallEnd.ok RequestValue.undefinedVal, sleeps := [],
          requests := 1 }) ∧
    (∀ env : Envelope α,
      ¬ (r.status = 204 ∨ r.contentLengthHeader = some "0") →
      r.body = BodyParse.parsed env →
      (∀ e, env.success = false → env.error = some e →
        runAux retries outcomes a (retries + 1 - a) =
          { result := CallEnd.err (mkQCKError e.message r.status e.code),
            sleeps := [], requests := 1 }) ∧
      ((env.success = true ∨ env.error = none) →
        runAux retries outcomes a (retries + 1 - a) =
          { result := CallEnd.ok (RequestValue.dataVal env.data), sleeps := [],
            requests := 1 })) := by
  obtain ⟨f, hf⟩ : ∃ f, retries + 1 - a = f + 1 := ⟨retries - a, by omega⟩
  have h429 : r.status ≠ 429 := by
    intro h
    rw [h] at hok
    exact absurd hok (by decide)
  constructor
  · intro hempty
    rw [hf]
    have hstep : stepOf retries a (outcomes a) =
        (Step.done RequestValue.undefinedVal : Step α) := by
      rw [hout]
      simp [stepOf, h429, hok, hempty]
    simp [runAux, hstep]
  · intro env hnempty hbody
    constructor
    · intro e hsucc herr
      rw [hf]
      have hstep : stepOf retries a (outcomes a) =
          Step.failed (mkQCKError e.message r.status e.code) := by
        rw [hout]
        simp [stepOf, h429, hok, hnempty, hbody, hsucc, herr]
      simp [runAux, hstep]
    · intro hor
      rw [hf]
      have hstep : stepOf retries a (outcomes a) =
          Step.done (RequestValue.dataVal env.data) := by
        rw [hout]
        rcases hor with hs | he
        · simp [stepOf, h429, hok, hnempty, hbody, hs]
        · rcases hsv : env.success with _ | _
          · simp [stepOf, h429, hok, hnempty, hbody, hsv, he]
          · simp [stepOf, h429, hok, hnempty, hbody, hsv]
      simp [runAux, hstep]

/-- Witness for C5: a 204 response resolves to the undefined result at once,
even though its body is unparseable, because the body is never parsed. -/
theorem c5_success_handling_witness :
    runAux 3
      (fun _ => AttemptOutcome.response
        ({ status := 204, retryAfterHeader := none,
           contentLengthHeader := some "0", body := BodyParse.unparseable "z" }
          : HttpResponse Unit)) 0 (3 + 1 - 0) =
      { result := CallEnd.ok RequestValue.undefinedVal, sleeps := [],
        requests := 1 } :=
  (c5_success_handling 3
    (fun _ => AttemptOutcome.response
      ({ status := 204, retryAfterHeader := none,
         contentLengthHeader := some "0", body := BodyParse.unparseable "z" }
        : HttpResponse Unit)) 0
    { status := 204, retryAfterHeader := none, contentLengthHeader := some "0",
      body := BodyParse.unparseable "z" }
    (by decide) rfl (by decide)).1 (Or.inl rfl)

/-- For a status other than 429 mapError never yields a RateLimitError. -/
theorem mapError_not_rate_limit {α : Type} (r : HttpResponse α)
    (h : r.status ≠ 429) : (mapError r).name ≠ "RateLimitError" := by
  simp only [mapError]
  by_cases h400 : r.status = 400
  · rw [if_pos h400]
    exact fun hc =>
      absurd (show ("ValidationError" : String) = "RateLimitError" from hc)
        (by decide)
  · rw [if_neg h400]
    by_cases h401 : r.status = 401
    · rw [if_pos h401]
      exact fun hc =>
        absurd (show ("AuthenticationError" : String) = "RateLimitError" from hc)
          (by decide)
    · rw [if_neg h401]
      by_cases h404 : r.status = 404
      · rw [if_pos h404]
        exact fun hc =>
          absurd (show ("NotFoundError" : String) = "RateLimitError" from hc)
            (by decide)
      · rw [if_neg h404, if_neg h]
        exact fun hc =>
          absurd (show ("QCKError" : String) = "RateLimitError" from hc)
            (by decide)

/-- Any RateLimitError-named failure of the loop body on a response comes
from the 429 final-attempt branch and carries the retryAfter parsed from
that response's header. -/
theorem stepOf_rate_limit_name {α : Type} (retries a : Nat) (r : HttpResponse α)
    (e : TypedError)
    (hstep : stepOf retries a (AttemptOutcome.response r) = Step.failed e)
    (hname : e.name = "RateLimitError") :
    e = mkRateLimitError "Rate limit exceeded" (parseRetryAfter r.retryAfterHeader) := by
  simp only [stepOf] at hstep
  split at hstep
  · split at hstep
    · exact absurd hstep (by simp)
    · injection hstep with h
      exact h.symm
  · rename_i h429
    exfalso
    split at hstep
    · injection hstep with h
      rw [← h] at hname
      exact absurd hname (mapError_not_rate_limit r h429)
    · split at hstep
      · exact absurd hstep (by simp)
      · split at hstep
        · split at hstep
          · injection hstep with h
            rw [← h] at hname
            exact absurd
              (show ("QCKError" : String) = "RateLimitError" from hname)
              (by decide)
          · exact absurd hstep (by simp)
        · split at hstep
          · injection hstep with h
            rw [← h] at hname
            exact absurd
              (show ("QCKError" : String) = "RateLimitError" from hname)
              (by decide)
          · exact absurd hstep (by simp)

/-- C8 amended: every RateLimit error raised by the loop carries
retryAfterSeconds equal to the integer parsed from that attempt's
Retry-After header, which is 60 whenever the header is absent or
unparseable; the parsed value is signed and is not clamped to 0. -/
theorem c8_retry_after_from_header {α : Type} (retries a : Nat)
    (r : HttpResponse α) (e : TypedError)
    (hstep : stepOf retries a (AttemptOutcome.response r) = Step.failed e)
    (hname : e.name = "RateLimitError") :
    e.retryAfter = some (parseRetryAfter r.retryAfterHeader) ∧
    (r.retryAfterHeader = none → e.retryAfter = some 60) ∧
    (∀ s, r.retryAfterHeader = some s → parseInt10 s = none →
      e.retryAfter = some 60) := by
  have h := stepOf_rate_limit_name retries a r e hstep hname
  refine ⟨by rw [h]; rfl, ?_, ?_⟩
  · intro hh
    rw [h, hh]
    rfl
  · intro s hh hp
    rw [h, hh]
    have h60 : parseRetryAfter (some s) = 60 := by
      by_cases hse : s = "" <;> simp [parseRetryAfter, hse, hp]
    rw [h60]
    rfl

/-- Witness for C8 amended: with a Retry-After header of "oops" the
RateLimit error raised on the final attempt defaults to 60 seconds. -/
theorem c8_retry_after_from_header_witness :
    (mkRateLimitError "Rate limit exceeded"
      (parseRetryAfter (some "oops"))).retryAfter = some 60 :=
  (c8_retry_after_from_header 0 0
    ({ status := 429, retryAfterHeader := some "oops",
       contentLengthHeader := none, body := BodyParse.unparseable "x" }
      : HttpResponse Unit)
    (mkRateLimitError "Rate limit exceeded" (parseRetryAfter (some "oops")))
    (by decide) rfl).2.2 "oops" rfl (by decide)

/-- C3 amended: for statuses 400, 401, 404, 500 the taxonomy variant is
fixed by status and the message is taken from a parsed envelope's error;
the code comes from the envelope only for the Generic 500 variant, the
other variants carrying their class-fixed codes; a 429 call fails with the
RateLimit variant whose message is always the fixed "Rate limit exceeded";
and an unparseable body falls back to the message "HTTP status" (and code
API_ERROR for 500) without the mapping failing. -/
theorem c3_status_variant_mapping {α : Type} (r : HttpResponse α) :
    (∀ env e, r.body = BodyParse.parsed env → env.error = some e →
      (r.status = 400 → mapError r = mkValidationError e.message) ∧
      (r.status = 401 → mapError r = mkAuthenticationError e.message) ∧
      (r.status = 404 → mapError r = mkNotFoundError e.message) ∧
      (r.status = 500 → mapError r = mkQCKError e.message 500 e.code)) ∧
    (r.status = 429 → ∀ retries : Nat,
      stepOf retries retries (AttemptOutcome.response r) =
        (Step.failed
          (mkRateLimitError "Rate limit exceeded"
            (parseRetryAfter r.retryAfterHeader)) : Step α)) ∧
    (∀ msg, r.body = BodyParse.unparseable msg →
      (r.status = 400 →
        mapError r = mkValidationError ("HTTP " ++ toString r.status)) ∧
      (r.status = 401 →
        mapError r = mkAuthenticationError ("HTTP " ++ toString r.status)) ∧
      (r.status = 404 →
        mapError r = mkNotFoundError ("HTTP " ++ toString r.status)) ∧
      (r.status = 500 →
        mapError r = mkQCKError ("HTTP " ++ toString r.status) 500 "API_ERROR")) := by
  refine ⟨?_, ?_, ?_⟩
  · intro env e hbody herr
    refine ⟨?_, ?_, ?_, ?_⟩ <;> intro hst <;> simp [mapError, hbody, herr, hst]
  · intro hst retries
    simp [stepOf, hst]
  · intro msg hbody
    refine ⟨?_, ?_, ?_, ?_⟩ <;> intro hst <;> simp [mapError, hbody, hst]

/-- Witness for C3 amended: a 401 response with a parsed envelope error maps
to the Authentication variant with the envelope's message but the
class-fixed code. -/
theorem c3_status_variant_mapping_witness :
    mapError
      ({ status := 401, retryAfterHeader := none, contentLengthHeader := none,
         body := BodyParse.parsed
           { success := false, data := none,
             error := some { code := "UNAUTHORIZED", message := "Invalid API key" } } }
        : HttpResponse Unit) = mkAuthenticationError "Invalid API key" :=
  ((c3_status_variant_mapping
    ({ status := 401, retryAfterHeader := none, contentLengthHeader := none,
       body := BodyParse.parsed
         { success := false, data := none,
           error := some { code := "UNAUTHORIZED", message := "Invalid API key" } } }
      : HttpResponse Unit)).1
    { success := false, data := none,
      error := some { code := "UNAUTHORIZED", message := "Invalid API key" } }
    { code := "UNAUTHORIZED", message := "Invalid API key" } rfl rfl).2.1 rfl

/-- C10 amended: errors raised on the transport paths — deadline expiry, a
connectivity failure, a 2xx body that fails to parse — and the
exhausted-loop fallback all carry httpStatus 0, with codes TIMEOUT,
NETWORK_ERROR, NETWORK_ERROR and UNKNOWN respectively. -/
theorem c10_transport_errors_status_zero {α : Type} (retries a : Nat)
    (o : AttemptOutcome α) (e : TypedError) :
    (o = AttemptOutcome.timeout → stepOf retries a o = Step.failed e →
      e = mkQCKError "Request timed out" 0 "TIMEOUT" ∧ e.status = 0) ∧
    (∀ msg, o = AttemptOutcome.networkFailure msg →
      stepOf retries a o = Step.failed e →
      e = mkQCKError ("Network error: " ++ msg) 0 "NETWORK_ERROR" ∧
        e.status = 0) ∧
    (∀ r msg, o = AttemptOutcome.response r →
      r.body = BodyParse.unparseable msg → responseOk r.status = true →
      ¬ (r.status = 204 ∨ r.contentLengthHeader = some "0") →
      stepOf retries a o = Step.failed e →
      e = mkQCKError ("Network error: " ++ msg) 0 "NETWORK_ERROR" ∧
        e.status = 0) ∧
    (∀ outcomes : Nat → AttemptOutcome α,
      (runAux retries outcomes a 0).result = CallEnd.err e →
      e = mkQCKError "Request failed" 0 "UNKNOWN" ∧ e.status = 0) := by
  refine ⟨?_, ?_, ?_, ?_⟩
  · intro ho hstep
    subst ho
    simp only [stepOf] at hstep
    split at hstep
    · injection hstep with h
      subst h
      exact ⟨rfl, rfl⟩
    · exact absurd hstep (by simp)
  · intro msg ho hstep
    subst ho
    simp only [stepOf] at hstep
    split at hstep
    · injection hstep with h
      subst h
      exact ⟨rfl, rfl⟩
    · exact absurd hstep (by simp)
  · intro r msg ho hbody hok hnempty hstep
    subst ho
    have h429 : r.status ≠ 429 := by
      intro h
      rw [h] at hok
      exact absurd hok (by decide)
    rw [show stepOf retries a (AttemptOutcome.response r) =
        (if retries ≤ a then
          Step.failed (mkQCKError ("Network error: " ++ msg) 0 "NETWORK_ERROR")
        else Step.retrySleep (min (1000 * (2 : Int) ^ a) 10000) : Step α)
      from by simp [stepOf, h429, hok, hnempty, hbody]] at hstep
    split at hstep
    · injection hstep with h
      subst h
      exact ⟨rfl, rfl⟩
    · exact absurd hstep (by simp)
  · intro outcomes hres
    simp only [runAux] at hres
    injection hres with h
    subst h
    exact ⟨rfl, rfl⟩

/-- Witness for C10 amended: the timeout error raised when the single
attempt of a maxRetries-0 call expires carries httpStatus 0. -/
theorem c10_transport_errors_status_zero_witness :
    (mkQCKError "Request timed out" 0 "TIMEOUT" : TypedError).status = 0 :=
  ((c10_transport_errors_status_zero 0 0
    (AttemptOutcome.timeout : AttemptOutcome Unit)
    (mkQCKError "Request timed out" 0 "TIMEOUT")).1 rfl (by decide)).2

/-- Setting a key absent from the accumulated search params appends it. -/
theorem setParam_fresh (q : List (String × String)) (k v : String)
    (h : ∀ kv ∈ q, kv.1 ≠ k) : setParam q k v = q ++ [(k, v)] := by
  induction q with
  | nil => rfl
  | cons kv rest ih =>
    simp only [setParam]
    rw [if_neg (h kv (List.mem_cons_self kv rest))]
    rw [ih (fun kv2 hkv2 => h kv2 (List.mem_cons_of_mem kv hkv2))]
    rfl

/-- With pairwise-distinct keys (as Object.entries of a record yields) the
buildUrl fold of searchParams.set is the defined entries, coerced, in
order. -/
theorem foldl_setParam_eq (ps : List (String × ParamValue)) :
    ∀ q : List (String × String),
    (ps.map Prod.fst).Nodup →
    (∀ kv ∈ q, kv.1 ∉ ps.map Prod.fst) →
    ps.foldl
      (fun q kv =>
        if kv.2 = ParamValue.undef then q
        else setParam q kv.1 (ParamValue.coerce kv.2)) q =
      q ++ (ps.filter (fun kv => !(kv.2 == ParamValue.undef))).map
        (fun kv => (kv.1, ParamValue.coerce kv.2)) := by
  induction ps with
  | nil =>
    intro q _ _
    simp
  | cons kv rest ih =>
    intro q hnodup hq
    simp only [List.map_cons, List.nodup_cons] at hnodup
    obtain ⟨hhead, htail⟩ := hnodup
    simp only [List.foldl_cons]
    by_cases hu : kv.2 = ParamValue.undef
    · rw [if_pos hu]
      rw [ih q htail ?_]
      · have hpf : (kv.2 == ParamValue.undef) = true := by simp [hu]
        simp [List.filter_cons, hpf]
      · intro kv2 hkv2
        have hmem := hq kv2 hkv2
        simp only [List.map_cons, List.mem_cons] at hmem
        push_neg at hmem
        exact hmem.2
    · rw [if_neg hu]
      rw [setParam_fresh q kv.1 (ParamValue.coerce kv.2) ?_]
      · rw [ih (q ++ [(kv.1, ParamValue.coerce kv.2)]) htail ?_]
        · have hpf : (kv.2 == ParamValue.undef) = false := by simpa using hu
          simp [List.filter_cons, hpf, List.append_assoc]
        · intro kv2 hkv2
          rcases List.mem_append.mp hkv2 with hmem | hmem
          · have hmem2 := hq kv2 hmem
            simp only [List.map_cons, List.mem_cons] at hmem2
            push_neg at hmem2
            exact hmem2.2
          · simp only [List.mem_singleton] at hmem
            rw [hmem]
            exact hhead
      · intro kv2 hkv2
        have hmem := hq kv2 hkv2
        simp only [List.map_cons, List.mem_cons] at hmem
        push_neg at hmem
        exact hmem.1

/-- C9: for a constructed client, every call's URL base is the
trailing-slash-stripped baseUrl concatenated with the path; every defined
query entry is present with its string-coerced value, and every entry of
the resulting query comes from a defined entry — so undefined entries are
omitted entirely, never serialized. -/
theorem c9_query_parameter_contract (cfg : QCKConfig) (st : HttpClientState)
    (path : String) (ps : List (String × ParamValue))
    (hok : constructClient cfg = ConstructResult.ok st)
    (hnodup : (ps.map Prod.fst).Nodup) :
    (buildUrl st.baseUrl path (some ps)).base =
      stripTrailingSlashes (cfg.baseUrl.getD DEFAULT_BASE_URL) ++ path ∧
    (∀ k v, (k, v) ∈ ps → v ≠ ParamValue.undef →
      (k, ParamValue.coerce v) ∈ (buildUrl st.baseUrl path (some ps)).query) ∧
    (∀ k s, (k, s) ∈ (buildUrl st.baseUrl path (some ps)).query →
      ∃ v, (k, v) ∈ ps ∧ v ≠ ParamValue.undef ∧ s = ParamValue.coerce v) := by
  have hbase : st.baseUrl =
      stripTrailingSlashes (cfg.baseUrl.getD DEFAULT_BASE_URL) := by
    unfold constructClient at hok
    split at hok
    · exact absurd hok (by simp)
    · injection hok with h
      rw [← h]
  have hquery : (buildUrl st.baseUrl path (some ps)).query =
      (ps.filter (fun kv => !(kv.2 == ParamValue.undef))).map
        (fun kv => (kv.1, ParamValue.coerce kv.2)) := by
    have h := foldl_setParam_eq ps [] hnodup (by intro kv hkv; cases hkv)
    simpa using h
  refine ⟨?_, ?_, ?_⟩
  · show st.baseUrl ++ path = _
    rw [hbase]
  · intro k v hmem hne
    rw [hquery]
    apply List.mem_map.mpr
    refine ⟨(k, v), ?_, rfl⟩
    apply List.mem_filter.mpr
    refine ⟨hmem, ?_⟩
    simp [hne]
  · intro k s hmem
    rw [hquery] at hmem
    obtain ⟨kv, hkv, hg⟩ := List.mem_map.mp hmem
    obtain ⟨hkv_mem, hp⟩ := List.mem_filter.mp hkv
    have hk : kv.1 = k := congrArg Prod.fst hg
    refine ⟨kv.2, ?_, ?_, (congrArg Prod.snd hg).symm⟩
    · rw [← hk]
      simpa using hkv_mem
    · intro hu
      rw [hu] at hp
      simp at hp

/-- Witness for C9: with params page=1, limit=undefined, search="hello" the
built query includes the coerced search entry (and, by the theorem's third
conjunct, can contain no limit entry). -/
theorem c9_query_parameter_contract_witness :
    ("search", "hello") ∈
      (buildUrl "https://api.qck.sh/api/v1/developer" "/links"
        (some [("page", ParamValue.num 1), ("limit", ParamValue.undef),
               ("search", ParamValue.str "hello")])).query :=
  (c9_query_parameter_contract
    { apiKey := "k", baseUrl := none, timeoutMs := none, retriesCfg := none }
    { apiKey := "k", baseUrl := "https://api.qck.sh/api/v1/developer",
      timeoutMs := 30000, retries := 3 } "/links"
    [("page", ParamValue.num 1), ("limit", ParamValue.undef),
     ("search", ParamValue.str "hello")] rfl (by decide)).2.1
    "search" (ParamValue.str "hello") (by simp) (by decide)

end QCK
